import Mathlib

/-!
Shallow embedding of the decode/execute core of a 32-bit ARM7TDMI-class CPU
emulator written in JavaScript.

Sources embedded:
* `src/unnamed/part_000` — the `Decoder` class (pure word → instruction decode);
* `src/unnamed/part_001` — the `ARM7TDMI` class (register file, status flags,
  3-stage fetch/decode/execute pipeline, per-opcode handlers).

Conventions of the embedding:
* JavaScript numbers that hold 32-bit register/word values are modelled as
  `Nat` (the unsigned bit pattern, kept below `2^32` by the operations);
  values that can go negative (the program counter after a branch, branch
  targets, signed data-transfer offsets, the `diff` of a compare) are `Int`.
* JavaScript `x >>> k`, `x & m`, `x | m` on in-range values are `Nat`
  shift/and/or; `(... ) >>> 0` is the identity on those values.
* A `throw` in the source is `Except.error`; code that cannot throw returns
  plain values.
* The diagnostics collaborator (`Logger`) is a passive observer, so it is
  modelled as a list of events accumulated in the core state; the decoder's
  own `Logger.error` call on an unknown data-processing opcode has no
  observable effect on any value and is noted in a comment instead.
* The memory collaborator (`MMU`) is not part of the source tree; per the
  spec it exposes `readWord(address) -> u32`, modelled as a pure function
  `mem : Int → Nat` passed to the operations that read memory.  The core
  under embedding never writes memory.
-/

/-- Modelled from the spec: the missing `constants` module's
`ARM_INSTR_LENGTH` — one instruction width.  The spec fixes it to 4 bytes
(the program counter "advances by 4" on every fetch and `pc + 8` is
"two instruction-widths ahead"). -/
def ARM_INSTR_LENGTH : Int := 4

namespace Utils

/-- Modelled from the spec: the missing `Utils.toSigned` helper at its
branch-decode use site — "extract a 24-bit signed offset (bits [23:0]),
sign-extend it": two's-complement sign extension from 24 bits. -/
def toSigned24 (v : Nat) : Int :=
  if v &&& 0x800000 = 0 then (v : Int) else (v : Int) - 0x1000000

/-- Modelled from the spec: the missing `Utils.toSigned` helper at its
compare use site — "arithmetic that needs sign (comparisons, branch
offsets) explicitly reinterprets bits as two's-complement", with register
values "treated as 32-bit unsigned words at rest": two's-complement
reinterpretation of a 32-bit word. -/
def toSigned32 (v : Nat) : Int :=
  if v % 4294967296 < 2147483648 then ((v % 4294967296 : Nat) : Int)
  else ((v % 4294967296 : Nat) : Int) - 4294967296

/-- Modelled from the spec: the missing `Utils.ror` helper — the
barrel-shifter rotate-right-by-`n`-bits operation on a 32-bit value
("operand2 is a resolved 32-bit immediate value"). -/
def ror (v n : Nat) : Nat :=
  ((v >>> n) ||| (v <<< (32 - n))) % 4294967296

end Utils

/-- JavaScript `ToUint32`: the bit pattern of an integer reduced into
`[0, 2^32)`, as applied by `>>>` and by `>>> 0` coercions. -/
def u32 (a : Int) : Nat := (a % 4294967296).toNat

/-- The three data-processing operations the decoder recognises
(source: `_decodeDataProc`, opcode map 0x9/0xA/0xD). -/
inductive DPOp
  | teq
  | cmp
  | mov
deriving DecidableEq

/-- The two data-transfer operations (source: `_decodeDataTransfer`,
`op = 'str'` overwritten to `'ldr'` when bit 20 is set). -/
inductive DTOp
  | ldr
  | str
deriving DecidableEq

/-- Instruction descriptor produced by the decoder.  The source carries it
as a positional array `[pc, opcodeName, ...operands]`; each constructor
mirrors one of those array shapes.  Register identifiers `r0`..`r15`
(source strings `` `r${n}` ``) are carried as their numeric index. -/
inductive Instr
  | unknown (pc : Int)
  | b (pc : Int) (target : Int)
  | dataProc (pc : Int) (op : DPOp) (Rd Rn : Nat) (Op2 : Nat)
  | dataTransfer (pc : Int) (op : DTOp) (Rd Rn : Nat) (P : Bool) (offset : Int)
deriving DecidableEq

/-- The two `throw new Error(...)` sites of the decoder: the unsupported
register-operand form of data-processing (`'TODO: Op2 is a register'`) and
the unsupported shifted-register offset of data-transfer
(`'Shifted register'`). -/
inductive DecodeErr
  | op2Register
  | shiftedRegister
deriving DecidableEq

namespace Decoder

/-- Source `Decoder._decodeUnknown(pc)`: `return [pc, '???']`. -/
def decodeUnknown (pcv : Int) : Instr := Instr.unknown pcv

/-- Source `Decoder._decodeBranch(word, pc)`:
`offset = word & 0x00ffffff`;
`return [pc, 'b', pc + c.ARM_INSTR_LENGTH*2 + (Utils.toSigned(offset)*4)]`. -/
def decodeBranch (word pcv : Int) : Instr :=
  let offset := u32 word &&& 0xffffff
  Instr.b pcv (pcv + ARM_INSTR_LENGTH * 2 + Utils.toSigned24 offset * 4)

/-- The opcode `switch` of `_decodeDataProc`: 9 → `teq`, 0xa → `cmp`,
0xd → `mov`, anything else falls through to the default case. -/
def dpOpOf (opcode : Nat) : Option DPOp :=
  if opcode = 9 then some DPOp.teq
  else if opcode = 10 then some DPOp.cmp
  else if opcode = 13 then some DPOp.mov
  else none

/-- Source `Decoder._decodeDataProc(word, pc)`.  The default opcode case
logs `Logger.error` (a pure diagnostic) and returns the Unknown
descriptor; the recognised-opcode path reads `Rn` (bits [19:16]) and `Rd`
(bits [15:12]) and then tests bit 25.  The source's immediate test
`word >>> 25 & 1 === 1` parses as `word >>> 25 & (1 === 1)`, i.e. the
plain bit-25 value used as a truthy condition, so it is the test
`word >>> 25 & 1` ≠ 0, embedded as `= 1`.  With the immediate flag set,
`Op2 = Utils.ror(word & 0xff, (word >>> 8 & 0xf)*2)`; with it clear the
source throws. -/
def decodeDataProc (word pcv : Int) : Except DecodeErr Instr :=
  match dpOpOf (u32 word >>> 21 &&& 0xf) with
  | none => Except.ok (decodeUnknown pcv)
  | some op =>
    let Rn := u32 word >>> 16 &&& 0xf
    let Rd := u32 word >>> 12 &&& 0xf
    if u32 word >>> 25 &&& 1 = 1 then
      Except.ok (Instr.dataProc pcv op Rd Rn
        (Utils.ror (u32 word &&& 0xff) ((u32 word >>> 8 &&& 0xf) * 2)))
    else
      Except.error DecodeErr.op2Register

/-- Source `Decoder._decodeDataTransfer(word, pc)`: flags `I` (bit 25),
`P` (bit 24), `U` (bit 23); `op` is `'str'` unless bit 20 is set (`'ldr'`);
`Rn` bits [19:16], `Rd` bits [15:12]; with `I` false a 12-bit immediate
offset (negated when `U` is false), with `I` true the source throws. -/
def decodeDataTransfer (word pcv : Int) : Except DecodeErr Instr :=
  let op := if u32 word >>> 20 &&& 1 = 1 then DTOp.ldr else DTOp.str
  let Rn := u32 word >>> 16 &&& 0xf
  let Rd := u32 word >>> 12 &&& 0xf
  if u32 word >>> 25 &&& 1 = 1 then
    Except.error DecodeErr.shiftedRegister
  else
    let offset : Int := ((u32 word &&& 0xfff : Nat) : Int)
    Except.ok (Instr.dataTransfer pcv op Rd Rn (decide (u32 word >>> 24 &&& 1 = 1))
      (if u32 word >>> 23 &&& 1 = 1 then offset else -offset))

/-- Source `Decoder.decode(word, pc)`: `switch (word >>> 24 & 0xf)` with
cases 0xa (branch), 0–3 (data-processing), 4–5 (data-transfer), default
Unknown.  The `switch` dispatches on equality against disjoint labels, so
it is embedded as an equivalent `if` chain (`cls ≤ 3` covers exactly the
labels 0, 1, 2, 3 since `cls < 16`). -/
def decode (word pcv : Int) : Except DecodeErr Instr :=
  let cls := u32 word >>> 24 &&& 0xf
  if cls = 10 then Except.ok (decodeBranch word pcv)
  else if cls ≤ 3 then decodeDataProc word pcv
  else if cls = 4 ∨ cls = 5 then decodeDataTransfer word pcv
  else Except.ok (decodeUnknown pcv)

end Decoder

/-- Diagnostic events sent to the `Logger` collaborator by the core:
`Logger.fetched(pc, word)`, `Logger.instr(pc, op, args)` before a handler
runs, and `Logger.info(op + ' unimplemented')` for an opcode missing from
the dispatch table. -/
inductive Ev
  | fetchEv (addr : Int) (word : Nat)
  | instrEv (pc : Int)
  | infoEv
deriving DecidableEq

/-- State of the `ARM7TDMI` instance: the register object `_r`
(r0–r15 as a numeric-index map — the source object has keys `r0`..`r14`
and acquires `r15` as a fresh key on first write — plus the separate
`pc`, `cpsr` and `sprs` slots), the two pipeline slots `_fetched` and
`_decoded`, the `_branched` latch (initially absent, i.e. falsy), and the
accumulated diagnostic events. -/
structure CPU where
  regs : Nat → Nat
  pc : Int
  cpsr : Nat
  sprs : Nat
  fetched : Option (Int × Nat)
  decoded : Option Instr
  branched : Bool
  log : List Ev

namespace ARM7TDMI

/-- A freshly constructed core: all registers, `pc`, `cpsr`, `sprs` zero,
both pipeline slots empty, branch latch unset. -/
def init : CPU :=
  { regs := fun _ => 0, pc := 0, cpsr := 0, sprs := 0,
    fetched := none, decoded := none, branched := false, log := [] }

/-- Source `getNZCV()`: `this._r.cpsr >>> 28`. -/
def getNZCV (c : Nat) : Nat := c >>> 28

/-- Source `setNZCV(bits)`:
`this._r.cpsr = (this._r.cpsr & 0x07ffffff | (bits << 28)) >>> 0`
(for a cpsr below `2^32` and a 4-bit `bits` the `ToInt32`/`>>> 0`
round-trip is the identity on the resulting bit pattern). -/
def setNZCV (c bits : Nat) : Nat := c &&& 0x07ffffff ||| bits <<< 28

/-- Source `getIFT()`: `this._r.cpsr >>> 5` (no mask). -/
def getIFT (c : Nat) : Nat := c >>> 5

/-- Source `setIFT(bits)`:
`this._r.cpsr = (this._r.cpsr & 0xffffff1f | (bits << 5)) >>> 0`. -/
def setIFT (c bits : Nat) : Nat := c &&& 0xffffff1f ||| bits <<< 5

/-- Source `_setN(set)`: bit 31 of cpsr. -/
def setN (b : Bool) (c : Nat) : Nat :=
  if b then c ||| 0x80000000 else c &&& 0x7fffffff

/-- Source `_setZ(set)`: bit 30 of cpsr. -/
def setZ (b : Bool) (c : Nat) : Nat :=
  if b then c ||| 0x40000000 else c &&& 0xbfffffff

/-- Source `_setC(set)`: bit 29 of cpsr. -/
def setC (b : Bool) (c : Nat) : Nat :=
  if b then c ||| 0x20000000 else c &&& 0xdfffffff

/-- Source `_setV(set)`: bit 28 of cpsr. -/
def setV (b : Bool) (c : Nat) : Nat :=
  if b then c ||| 0x10000000 else c &&& 0xefffffff

/-- Observer: the Negative flag, bit 31 of the status register. -/
def getN (c : Nat) : Bool := c.testBit 31

/-- Observer: the Zero flag, bit 30 of the status register. -/
def getZ (c : Nat) : Bool := c.testBit 30

/-- Observer: the Carry flag, bit 29 of the status register. -/
def getC (c : Nat) : Bool := c.testBit 29

/-- Observer: the Overflow flag, bit 28 of the status register. -/
def getV (c : Nat) : Bool := c.testBit 28

/-- Source `_b(addr)`: `this._r.pc = addr; this._branched = true;`. -/
def bOp (addr : Int) (σ : CPU) : CPU :=
  { σ with pc := addr, branched := true }

/-- Source `_cmp(Rd, Rn, Op2)` (`Rd` unused):
`sRn = Utils.toSigned(this._r[Rn]); diff = sRn - Op2;` then
`_setN(Utils.toSigned(diff) < 0)` — the inner `toSigned` is modelled from
the spec as "Negative = (diff < 0 as signed)" — `_setZ(diff === 0)`,
`_setC(!(Op2 > this._r[Rn]))` (raw unsigned comparison), and
`_setV(diff < -2147483648)`.  Note `Op2` enters the subtraction raw,
without a sign reinterpretation. -/
def cmpOp (Rn Op2 : Nat) (σ : CPU) : CPU :=
  let sRn := Utils.toSigned32 (σ.regs Rn)
  let diff : Int := sRn - (Op2 : Int)
  let cpsr1 :=
    setV (decide (diff < -2147483648))
      (setC (!decide (Op2 > σ.regs Rn))
        (setZ (decide (diff = 0))
          (setN (decide (diff < 0)) σ.cpsr)))
  { σ with cpsr := cpsr1 }

/-- Source `_mov(Rd, Rn, Op2)` (`Rn` unused):
`this._r[Rd] = Op2; this._setZ(Op2 === 0);`. -/
def movOp (Rd Op2 : Nat) (σ : CPU) : CPU :=
  { σ with regs := fun i => if i = Rd then Op2 else σ.regs i,
           cpsr := setZ (decide (Op2 = 0)) σ.cpsr }

/-- Source `_ldr(Rd, Rn, P, offset)`: with `P` set,
`this._r[Rd] = this._mmu.readWord(this._r[Rn] + offset)`; with `P` clear
the body is an explicit TODO no-op. -/
def ldrOp (mem : Int → Nat) (Rd Rn : Nat) (P : Bool) (offset : Int) (σ : CPU) : CPU :=
  if P then
    { σ with regs := fun i => if i = Rd then mem ((σ.regs Rn : Int) + offset) else σ.regs i }
  else σ

/-- Source `_teq(Rd, Rn, Op2)` (`Rd` unused):
`xor = (this._r[Rn] ^ Op2) >>> 0; this._setZ(xor === 0);`. -/
def teqOp (Rn Op2 : Nat) (σ : CPU) : CPU :=
  { σ with cpsr := setZ (decide ((σ.regs Rn ^^^ Op2) = 0)) σ.cpsr }

/-- The read-address priority rule at the top of `_fetch`:
1. a Branch sitting in `_decoded` redirects the fetch to its target
   (`this._decoded[1] === 'b'` → `readFrom = this._decoded[2]`);
2. else a pending `_branched` latch reads one instruction ahead
   (`readFrom = this._r.pc + c.ARM_INSTR_LENGTH`);
3. else `readFrom = this._r.pc`. -/
def fetchAddr (σ : CPU) : Int :=
  match σ.decoded with
  | some (Instr.b _ t) => t
  | _ => if σ.branched then σ.pc + ARM_INSTR_LENGTH else σ.pc

/-- Source `_fetch()`: compute `readFrom` by the priority rule; consume a
pending `_branched` latch (clearing it and advancing `pc` by 4 once);
record `_fetched = [readFrom, this._mmu.readWord(readFrom)]`; emit the
fetch diagnostic; advance `pc` by 4. -/
def fetchPhase (mem : Int → Nat) (σ : CPU) : CPU :=
  let readFrom := fetchAddr σ
  let σ1 := if σ.branched then { σ with branched := false, pc := σ.pc + 4 } else σ
  { σ1 with fetched := some (readFrom, mem readFrom),
            log := Ev.fetchEv readFrom (mem readFrom) :: σ1.log,
            pc := σ1.pc + 4 }

/-- Source `_decode()`: no-op when nothing has been fetched; otherwise
`this._decoded = Decoder.decode(...this._fetched)`.  `_fetched` is the
array `[readFrom, word]`, so the spread hands the fetch ADDRESS to the
decoder's `word` parameter and the fetched WORD to its `pc` parameter —
this argument order is embedded exactly as the source performs it.  A
decoder throw propagates out of the phase. -/
def decodePhase (σ : CPU) : Except DecodeErr CPU :=
  match σ.fetched with
  | none => Except.ok σ
  | some (a, w) =>
    match Decoder.decode a ((w : Nat) : Int) with
    | Except.ok i => Except.ok { σ with decoded := some i }
    | Except.error e => Except.error e

/-- Source `_execute()`: with `_decoded` empty, a no-op.  Otherwise the
source splices `pc` and the opcode name off the decoded array and looks
the name up in `_opcodes`; present handlers (`'???'` → `_nop`, `'b'`,
`'cmp'`, `'mov'`, `'ldr'`, `'teq'`) run after a `Logger.instr` event,
while a missing name (`'str'` has no handler) yields only a
`Logger.info` event.  The splice leaves the operand remainder in
`_decoded`; that remainder is observationally dead, since every public
sequence runs `_decode` (which overwrites `_decoded`) before the next
`_fetch`, so the slot is left unchanged here. -/
def execPhase (mem : Int → Nat) (σ : CPU) : CPU :=
  match σ.decoded with
  | none => σ
  | some i =>
    match i with
    | Instr.unknown p => { σ with log := Ev.instrEv p :: σ.log }
    | Instr.b p t => bOp t { σ with log := Ev.instrEv p :: σ.log }
    | Instr.dataProc p op Rd Rn Op2 =>
      (match op with
       | DPOp.cmp => cmpOp Rn Op2
       | DPOp.mov => movOp Rd Op2
       | DPOp.teq => teqOp Rn Op2) { σ with log := Ev.instrEv p :: σ.log }
    | Instr.dataTransfer p op Rd Rn P offset =>
      match op with
      | DTOp.ldr => ldrOp mem Rd Rn P offset { σ with log := Ev.instrEv p :: σ.log }
      | DTOp.str => { σ with log := Ev.infoEv :: σ.log }

/-- Source `boot()`: `this._fetch()._decode()._fetch()`. -/
def boot (mem : Int → Nat) (σ : CPU) : Except DecodeErr CPU :=
  match decodePhase (fetchPhase mem σ) with
  | Except.ok σ1 => Except.ok (fetchPhase mem σ1)
  | Except.error e => Except.error e

/-- Source `execute()` (the public step):
`this._execute()._decode()._fetch()`. -/
def execute (mem : Int → Nat) (σ : CPU) : Except DecodeErr CPU :=
  match decodePhase (execPhase mem σ) with
  | Except.ok σ1 => Except.ok (fetchPhase mem σ1)
  | Except.error e => Except.error e

end ARM7TDMI

/-- Whether a decode result is a successfully decoded non-branch
descriptor (used to state the branch-flush timing law: a branch
descriptor produced by the refill decode redirects the next fetch by
priority rule 1, and a decode throw aborts the step). -/
def decodesToNonBranch : Except DecodeErr Instr → Bool
  | Except.ok (Instr.b _ _) => false
  | Except.ok _ => true
  | Except.error _ => false

deriving instance DecidableEq for Except

/-- Memory image with the branch word `0xEA000002` (branch, offset 2) at
address 0 and zero words everywhere else. -/
def mem0 : Int → Nat := fun a => if a = 0 then 0xEA000002 else 0

/-- All-zero memory image. -/
def memZ : Int → Nat := fun _ => 0

/-- A core state whose register `r1` holds 1 (fresh core otherwise). -/
def sigCmp : CPU := { ARM7TDMI.init with regs := fun i => if i = 1 then 1 else 0 }

/-- A core state in which the decode phase has just produced a Branch
descriptor targeting `0x0A000000` (an address whose bits [27:24] are
`1010`, so the refill decode itself yields a Branch). -/
def sigB : CPU := { ARM7TDMI.init with decoded := some (Instr.b 0 0x0A000000) }

/-- A core state in which the decode phase has just produced a Branch
descriptor targeting address 12. -/
def sigBW : CPU := { ARM7TDMI.init with decoded := some (Instr.b 0 12) }

/-- A core state whose decoded slot holds an Unknown descriptor. -/
def sigU : CPU := { ARM7TDMI.init with decoded := some (Instr.unknown 0) }

/-- A core state whose decoded slot holds a store descriptor (the decode
of word `0x04000004` at pc 0). -/
def sigS : CPU :=
  { ARM7TDMI.init with decoded := some (Instr.dataTransfer 0 DTOp.str 0 0 false (-4)) }

/-! ## Helper lemmas -/

theorem u32_ofNat (w : Nat) (hw : w < 4294967296) : u32 ((w : Nat) : Int) = w := by
  have h0 : (0 : Int) ≤ (w : Int) := Int.ofNat_nonneg w
  have h1 : (w : Int) < 4294967296 := by exact_mod_cast hw
  simp [u32, Int.emod_eq_of_lt h0 h1]

theorem testBit_lor_true (c m i : Nat) (h : m.testBit i = true) :
    (c ||| m).testBit i = true := by
  rw [Nat.testBit_lor, h, Bool.or_true]

theorem testBit_lor_of_false (c m i : Nat) (h : m.testBit i = false) :
    (c ||| m).testBit i = c.testBit i := by
  rw [Nat.testBit_lor, h, Bool.or_false]

theorem testBit_land_false (c m i : Nat) (h : m.testBit i = false) :
    (c &&& m).testBit i = false := by
  rw [Nat.testBit_land, h, Bool.and_false]

theorem testBit_land_of_true (c m i : Nat) (h : m.testBit i = true) :
    (c &&& m).testBit i = c.testBit i := by
  rw [Nat.testBit_land, h, Bool.and_true]

namespace ARM7TDMI

theorem getN_setN (b : Bool) (c : Nat) : getN (setN b c) = b := by
  cases b
  · exact testBit_land_false c 0x7fffffff 31 (by decide)
  · exact testBit_lor_true c 0x80000000 31 (by decide)

theorem getN_setZ (b : Bool) (c : Nat) : getN (setZ b c) = getN c := by
  cases b
  · exact testBit_land_of_true c 0xbfffffff 31 (by decide)
  · exact testBit_lor_of_false c 0x40000000 31 (by decide)

theorem getN_setC (b : Bool) (c : Nat) : getN (setC b c) = getN c := by
  cases b
  · exact testBit_land_of_true c 0xdfffffff 31 (by decide)
  · exact testBit_lor_of_false c 0x20000000 31 (by decide)

theorem getN_setV (b : Bool) (c : Nat) : getN (setV b c) = getN c := by
  cases b
  · exact testBit_land_of_true c 0xefffffff 31 (by decide)
  · exact testBit_lor_of_false c 0x10000000 31 (by decide)

theorem getZ_setN (b : Bool) (c : Nat) : getZ (setN b c) = getZ c := by
  cases b
  · exact testBit_land_of_true c 0x7fffffff 30 (by decide)
  · exact testBit_lor_of_false c 0x80000000 30 (by decide)

theorem getZ_setZ (b : Bool) (c : Nat) : getZ (setZ b c) = b := by
  cases b
  · exact testBit_land_false c 0xbfffffff 30 (by decide)
  · exact testBit_lor_true c 0x40000000 30 (by decide)

theorem getZ_setC (b : Bool) (c : Nat) : getZ (setC b c) = getZ c := by
  cases b
  · exact testBit_land_of_true c 0xdfffffff 30 (by decide)
  · exact testBit_lor_of_false c 0x20000000 30 (by decide)

theorem getZ_setV (b : Bool) (c : Nat) : getZ (setV b c) = getZ c := by
  cases b
  · exact testBit_land_of_true c 0xefffffff 30 (by decide)
  · exact testBit_lor_of_false c 0x10000000 30 (by decide)

theorem getC_setN (b : Bool) (c : Nat) : getC (setN b c) = getC c := by
  cases b
  · exact testBit_land_of_true c 0x7fffffff 29 (by decide)
  · exact testBit_lor_of_false c 0x80000000 29 (by decide)

theorem getC_setZ (b : Bool) (c : Nat) : getC (setZ b c) = getC c := by
  cases b
  · exact testBit_land_of_true c 0xbfffffff 29 (by decide)
  · exact testBit_lor_of_false c 0x40000000 29 (by decide)

theorem getC_setC (b : Bool) (c : Nat) : getC (setC b c) = b := by
  cases b
  · exact testBit_land_false c 0xdfffffff 29 (by decide)
  · exact testBit_lor_true c 0x20000000 29 (by decide)

theorem getC_setV (b : Bool) (c : Nat) : getC (setV b c) = getC c := by
  cases b
  · exact testBit_land_of_true c 0xefffffff 29 (by decide)
  · exact testBit_lor_of_false c 0x10000000 29 (by decide)

theorem getV_setN (b : Bool) (c : Nat) : getV (setN b c) = getV c := by
  cases b
  · exact testBit_land_of_true c 0x7fffffff 28 (by decide)
  · exact testBit_lor_of_false c 0x80000000 28 (by decide)

theorem getV_setZ (b : Bool) (c : Nat) : getV (setZ b c) = getV c := by
  cases b
  · exact testBit_land_of_true c 0xbfffffff 28 (by decide)
  · exact testBit_lor_of_false c 0x40000000 28 (by decide)

theorem getV_setC (b : Bool) (c : Nat) : getV (setC b c) = getV c := by
  cases b
  · exact testBit_land_of_true c 0xdfffffff 28 (by decide)
  · exact testBit_lor_of_false c 0x20000000 28 (by decide)

theorem getV_setV (b : Bool) (c : Nat) : getV (setV b c) = b := by
  cases b
  · exact testBit_land_false c 0xefffffff 28 (by decide)
  · exact testBit_lor_true c 0x10000000 28 (by decide)

end ARM7TDMI

theorem bit25_eq_zero_of_cls45 (w : Nat)
    (h : w >>> 24 &&& 0xf = 4 ∨ w >>> 24 &&& 0xf = 5) :
    w >>> 25 &&& 1 = 0 := by
  have e24 : w >>> 24 &&& 0xf = (w / 2 ^ 24) % 2 ^ 4 := by
    rw [Nat.shiftRight_eq_div_pow,
      show (0xf : Nat) = 2 ^ 4 - 1 by norm_num,
      Nat.and_pow_two_sub_one_eq_mod]
  have e25 : w >>> 25 &&& 1 = (w / 2 ^ 25) % 2 := by
    rw [Nat.shiftRight_eq_div_pow, Nat.and_one_is_mod]
  have ediv : w / 2 ^ 25 = w / 2 ^ 24 / 2 := by
    rw [Nat.div_div_eq_div_mul]
    norm_num
  rw [e24] at h
  rw [e25, ediv]
  omega

/-! ## Claim theorems -/

/-- Claim C3 (confirmed): for every 32-bit word whose class bits [27:24]
equal `1010` and every program counter `p`, `decode(word, p)` returns a
Branch descriptor whose target is
`p + 8 + 4 * sign_extend_24(word[23:0])`. -/
theorem C3_branch_offset_law (w : Nat) (hw : w < 4294967296)
    (hcls : w >>> 24 &&& 0xf = 10) (p : Int) :
    Decoder.decode ((w : Nat) : Int) p =
      Except.ok (Instr.b p (p + 8 + 4 * Utils.toSigned24 (w &&& 0xffffff))) := by
  simp only [Decoder.decode, Decoder.decodeBranch, u32_ofNat w hw, hcls, if_pos,
    ARM_INSTR_LENGTH, Except.ok.injEq, Instr.b.injEq, reduceIte, true_and]
  omega

/-- Witness for C3 at the spec's own example: word `0xEA000002` at pc 0
decodes to a Branch targeting 16. -/
theorem C3_branch_offset_law_witness :
    ((0xEA000002 : Nat) < 4294967296 ∧ (0xEA000002 : Nat) >>> 24 &&& 0xf = 10) ∧
    Decoder.decode ((0xEA000002 : Nat) : Int) 0 =
      Except.ok (Instr.b 0 (0 + 8 + 4 * Utils.toSigned24 (0xEA000002 &&& 0xffffff))) :=
  ⟨⟨by decide, by decide⟩, C3_branch_offset_law 0xEA000002 (by decide) (by decide) 0⟩

/-- Claim C4, counterexample: the data-processing word 0 (class 0, opcode
field 0, immediate flag clear) decodes to the Unknown descriptor instead
of raising the unsupported-feature failure, because the opcode `switch`
returns Unknown before the immediate flag is ever examined. -/
theorem C4_register_operand_counterexample :
    ((0 : Nat) >>> 24 &&& 0xf ≤ 3) ∧ ((0 : Nat) >>> 25 &&& 1 = 0) ∧
    Decoder.decode 0 0 = Except.ok (Instr.unknown 0) := by
  refine ⟨by decide, by decide, by decide⟩

/-- Claim C4 (corrected): for every data-processing-class word with a
RECOGNISED opcode field (one of 0x9, 0xA, 0xD) and the immediate flag
(bit 25) clear, decode raises the unsupported-feature failure. -/
theorem C4_register_operand_amended (w : Nat) (hw : w < 4294967296) (p : Int)
    (hcls : w >>> 24 &&& 0xf ≤ 3)
    (hop : w >>> 21 &&& 0xf = 9 ∨ w >>> 21 &&& 0xf = 10 ∨ w >>> 21 &&& 0xf = 13)
    (himm : w >>> 25 &&& 1 = 0) :
    Decoder.decode ((w : Nat) : Int) p = Except.error DecodeErr.op2Register := by
  have h10 : ¬(w >>> 24 &&& 0xf = 10) := by omega
  rcases hop with h | h | h <;>
    simp [Decoder.decode, Decoder.decodeDataProc, Decoder.dpOpOf,
      u32_ofNat w hw, h10, hcls, h, himm]

/-- Witness for the amended C4: word `0x01200000` (class 1, opcode 9,
bit 25 clear) makes decode fail with the register-operand error. -/
theorem C4_register_operand_amended_witness :
    ((0x01200000 : Nat) >>> 24 &&& 0xf ≤ 3 ∧ (0x01200000 : Nat) >>> 21 &&& 0xf = 9 ∧
      (0x01200000 : Nat) >>> 25 &&& 1 = 0) ∧
    Decoder.decode ((0x01200000 : Nat) : Int) 0 = Except.error DecodeErr.op2Register :=
  ⟨⟨by decide, by decide, by decide⟩,
    C4_register_operand_amended 0x01200000 (by decide) 0 (by decide)
      (Or.inl (by decide)) (by decide)⟩

/-- Claim C6 (code bug): `setNZCV` masks the prior status register with
`0x07ffffff`, which clears bit 27 in addition to writing bits 31–28, so
the lower 28 bits are NOT all preserved; at cpsr `0x08000000` (only
bit 27 set) and nibble 0 the whole register is zeroed.  The final
conjunct shows the 4-bit nibble itself is written correctly, so the slip
is exactly the extra cleared bit. -/
theorem C6_setNZCV_code_bug :
    ARM7TDMI.setNZCV 0x08000000 0 = 0 ∧
    Nat.testBit 0x08000000 27 = true ∧
    Nat.testBit (ARM7TDMI.setNZCV 0x08000000 0) 27 = false ∧
    ARM7TDMI.getNZCV (ARM7TDMI.setNZCV 0x08000000 0xf) = 0xf := by
  refine ⟨by decide, by decide, by decide, by decide⟩

/-- Claim C7 (confirmed): for every prior flag state, destination
register and operand2, the move operation writes `operand2` to the
destination register, sets Zero to `operand2 == 0`, and leaves the
Negative, Carry and Overflow flags bit-for-bit unchanged. -/
theorem C7_mov_flag_law (σ : CPU) (Rd Op2 : Nat) :
    (ARM7TDMI.movOp Rd Op2 σ).regs Rd = Op2 ∧
    ARM7TDMI.getZ (ARM7TDMI.movOp Rd Op2 σ).cpsr = decide (Op2 = 0) ∧
    ARM7TDMI.getN (ARM7TDMI.movOp Rd Op2 σ).cpsr = ARM7TDMI.getN σ.cpsr ∧
    ARM7TDMI.getC (ARM7TDMI.movOp Rd Op2 σ).cpsr = ARM7TDMI.getC σ.cpsr ∧
    ARM7TDMI.getV (ARM7TDMI.movOp Rd Op2 σ).cpsr = ARM7TDMI.getV σ.cpsr := by
  refine ⟨by simp [ARM7TDMI.movOp], ?_, ?_, ?_, ?_⟩ <;>
    simp [ARM7TDMI.movOp, ARM7TDMI.getZ_setZ, ARM7TDMI.getN_setZ,
      ARM7TDMI.getC_setZ, ARM7TDMI.getV_setZ]

/-- Claim C10, counterexample: with prior cpsr `0x100` (bit 8 set) the
round trip `getIFT(setIFT(cpsr, 0))` returns 8, not the written value 0,
because `getIFT` shifts without masking the result to 3 bits. -/
theorem C10_ift_roundtrip_counterexample :
    ARM7TDMI.getIFT (ARM7TDMI.setIFT 256 0) = 8 ∧ (8 : Nat) ≠ 0 := by
  refine ⟨by decide, by decide⟩

set_option maxRecDepth 4096 in
/-- Claim C10 (corrected): the round trip `getIFT(setIFT(cpsr, b))`
returns exactly `b` for every 3-bit `b` PROVIDED bits 8–31 of the prior
status register are clear; in general the unmasked getter also returns
the prior bits above bit 7, shifted down. -/
theorem C10_ift_roundtrip_amended (c b : Nat) (hc : c < 256) (hb : b < 8) :
    ARM7TDMI.getIFT (ARM7TDMI.setIFT c b) = b := by
  have H : ∀ c' < 256, ∀ b' < 8, ARM7TDMI.getIFT (ARM7TDMI.setIFT c' b') = b' := by decide
  exact H c hc b hb

/-- Witness for the amended C10 at cpsr 37(= bits 0,2,5 set) and b = 5. -/
theorem C10_ift_roundtrip_amended_witness :
    ((37 : Nat) < 256 ∧ (5 : Nat) < 8) ∧ ARM7TDMI.getIFT (ARM7TDMI.setIFT 37 5) = 5 :=
  ⟨⟨by decide, by decide⟩, C10_ift_roundtrip_amended 37 5 (by decide) (by decide)⟩

/-- Claim C5, counterexample: with `r1 = 1` and `operand2 = 0xFFFFFFFF`
the compare operation sets Overflow and Negative, whereas the claimed
signed-signed subtraction `signed(1) - signed(0xFFFFFFFF) = 2` predicts
both clear — the source subtracts `operand2` raw, without reinterpreting
it as signed. -/
theorem C5_cmp_flags_counterexample :
    ARM7TDMI.getV (ARM7TDMI.cmpOp 1 0xFFFFFFFF sigCmp).cpsr = true ∧
    ARM7TDMI.getN (ARM7TDMI.cmpOp 1 0xFFFFFFFF sigCmp).cpsr = true ∧
    ¬(Utils.toSigned32 1 - Utils.toSigned32 0xFFFFFFFF < -2147483648) ∧
    ¬(Utils.toSigned32 1 - Utils.toSigned32 0xFFFFFFFF < 0) := by
  refine ⟨by decide, by decide, by decide, by decide⟩

/-- Claim C5 (corrected): for every state, source register and operand2,
the compare operation sets the flags from
`diff = signed(src_reg) - operand2` where `operand2` enters RAW (not
sign-reinterpreted) and `diff` is the exact integer difference:
Negative = (diff < 0), Zero = (diff == 0),
Carry = NOT(operand2 > raw-unsigned(src_reg)), Overflow = (diff < -2^31). -/
theorem C5_cmp_flags_amended (σ : CPU) (Rn Op2 : Nat) :
    ARM7TDMI.getN (ARM7TDMI.cmpOp Rn Op2 σ).cpsr =
      decide (Utils.toSigned32 (σ.regs Rn) - (Op2 : Int) < 0) ∧
    ARM7TDMI.getZ (ARM7TDMI.cmpOp Rn Op2 σ).cpsr =
      decide (Utils.toSigned32 (σ.regs Rn) - (Op2 : Int) = 0) ∧
    ARM7TDMI.getC (ARM7TDMI.cmpOp Rn Op2 σ).cpsr = !decide (Op2 > σ.regs Rn) ∧
    ARM7TDMI.getV (ARM7TDMI.cmpOp Rn Op2 σ).cpsr =
      decide (Utils.toSigned32 (σ.regs Rn) - (Op2 : Int) < -2147483648) := by
  refine ⟨?_, ?_, ?_, ?_⟩ <;>
    simp [ARM7TDMI.cmpOp,
      ARM7TDMI.getN_setV, ARM7TDMI.getN_setC, ARM7TDMI.getN_setZ, ARM7TDMI.getN_setN,
      ARM7TDMI.getZ_setV, ARM7TDMI.getZ_setC, ARM7TDMI.getZ_setZ, ARM7TDMI.getZ_setN,
      ARM7TDMI.getC_setV, ARM7TDMI.getC_setC, ARM7TDMI.getC_setZ, ARM7TDMI.getC_setN,
      ARM7TDMI.getV_setV, ARM7TDMI.getV_setC, ARM7TDMI.getV_setZ, ARM7TDMI.getV_setN]

/-- Claim C8 (confirmed): a data-processing word whose opcode field is
none of 0x9/0xA/0xD decodes to the Unknown descriptor (no hard failure),
and executing an Unknown descriptor changes no register, no flag and not
the program counter — the handler table maps `'???'` to the no-op. -/
theorem C8_unknown_opcode_safe (w : Nat) (hw : w < 4294967296) (p : Int)
    (hcls : w >>> 24 &&& 0xf ≤ 3)
    (hop : ¬(w >>> 21 &&& 0xf = 9 ∨ w >>> 21 &&& 0xf = 10 ∨ w >>> 21 &&& 0xf = 13)) :
    Decoder.decode ((w : Nat) : Int) p = Except.ok (Instr.unknown p) ∧
    ∀ (mem : Int → Nat) (σ : CPU), σ.decoded = some (Instr.unknown p) →
      (ARM7TDMI.execPhase mem σ).regs = σ.regs ∧
      (ARM7TDMI.execPhase mem σ).cpsr = σ.cpsr ∧
      (ARM7TDMI.execPhase mem σ).pc = σ.pc := by
  push_neg at hop
  obtain ⟨h9, h10, h13⟩ := hop
  constructor
  · have hne10 : ¬(w >>> 24 &&& 0xf = 10) := by omega
    simp [Decoder.decode, Decoder.decodeDataProc, Decoder.dpOpOf, Decoder.decodeUnknown,
      u32_ofNat w hw, hne10, hcls, h9, h10, h13]
  · intro mem σ hσ
    refine ⟨?_, ?_, ?_⟩ <;> simp [ARM7TDMI.execPhase, hσ]

/-- Witness for C8 at word `0x02000000` (class 2, opcode field 0) and a
state whose decoded slot holds the corresponding Unknown descriptor. -/
theorem C8_unknown_opcode_safe_witness :
    ((0x02000000 : Nat) >>> 24 &&& 0xf ≤ 3 ∧ (0x02000000 : Nat) >>> 21 &&& 0xf = 0) ∧
    Decoder.decode ((0x02000000 : Nat) : Int) 0 = Except.ok (Instr.unknown 0) ∧
    (ARM7TDMI.execPhase memZ sigU).regs = sigU.regs ∧
    (ARM7TDMI.execPhase memZ sigU).cpsr = sigU.cpsr ∧
    (ARM7TDMI.execPhase memZ sigU).pc = sigU.pc := by
  have h := C8_unknown_opcode_safe 0x02000000 (by decide) 0 (by decide) (by decide)
  exact ⟨⟨by decide, by decide⟩, h.1, (h.2 memZ sigU rfl).1, (h.2 memZ sigU rfl).2.1,
    (h.2 memZ sigU rfl).2.2⟩

/-- Claim C9 (confirmed): every data-transfer word with the load bit
(bit 20) clear decodes to a store descriptor, and executing a store
descriptor emits only the informational "unimplemented" diagnostic — the
dispatch table has no `'str'` handler — leaving every register, every
flag and the rest of the state unchanged (the core contains no
memory-write operation at all). -/
theorem C9_store_unimplemented_noop (w : Nat) (hw : w < 4294967296) (p : Int)
    (hcls : w >>> 24 &&& 0xf = 4 ∨ w >>> 24 &&& 0xf = 5)
    (hload : w >>> 20 &&& 1 = 0) :
    Decoder.decode ((w : Nat) : Int) p =
      Except.ok (Instr.dataTransfer p DTOp.str (w >>> 12 &&& 0xf) (w >>> 16 &&& 0xf)
        (decide (w >>> 24 &&& 1 = 1))
        (if w >>> 23 &&& 1 = 1 then ((w &&& 0xfff : Nat) : Int)
         else -((w &&& 0xfff : Nat) : Int))) ∧
    ∀ (mem : Int → Nat) (σ : CPU) (q : Int) (Rd Rn : Nat) (P : Bool) (offset : Int),
      σ.decoded = some (Instr.dataTransfer q DTOp.str Rd Rn P offset) →
      ARM7TDMI.execPhase mem σ = { σ with log := Ev.infoEv :: σ.log } := by
  constructor
  · have h25 : w >>> 25 &&& 1 = 0 := bit25_eq_zero_of_cls45 w hcls
    have h25m : w >>> 25 % 2 = 0 := by rw [← Nat.and_one_is_mod]; exact h25
    have hne10 : ¬(w >>> 24 &&& 0xf = 10) := by rcases hcls with h | h <;> omega
    have hne3 : ¬(w >>> 24 &&& 0xf ≤ 3) := by rcases hcls with h | h <;> omega
    have h20m : w >>> 20 % 2 = 0 := by rw [← Nat.and_one_is_mod]; exact hload
    simp [Decoder.decode, Decoder.decodeDataTransfer, u32_ofNat w hw,
      hne10, hne3, hcls, h25, h25m, h20m]
  · intro mem σ q Rd Rn P offset hσ
    simp [ARM7TDMI.execPhase, hσ]

/-- Witness for C9 at word `0x04000004` (class 4, bit 20 clear, offset 4
with U clear) and a state holding the matching store descriptor. -/
theorem C9_store_unimplemented_noop_witness :
    ((0x04000004 : Nat) >>> 24 &&& 0xf = 4 ∧ (0x04000004 : Nat) >>> 20 &&& 1 = 0) ∧
    ARM7TDMI.execPhase memZ sigS = { sigS with log := Ev.infoEv :: sigS.log } :=
  ⟨⟨by decide, by decide⟩,
    (C9_store_unimplemented_noop 0x04000004 (by decide) 0 (Or.inl (by decide))
      (by decide)).2 memZ sigS 0 0 0 false (-4) rfl⟩

/-- Claim C1 (code bug): from a fresh core with the branch word
`0xEA000002` at address 0, `boot` leaves `pc = 8` (two fetches, the
lookahead the claim asserts), but the descriptor handed to the first
step's execute phase is `Unknown` tagged with the WORD as its pc — not
the Branch-to-16 that decoding the first fetched word yields — because
`_decode` spreads `_fetched = [address, word]` into
`Decoder.decode(word, pc)`, swapping the arguments against the decoder's
own documented signature. -/
theorem C1_pipeline_lookahead_code_bug :
    (ARM7TDMI.boot mem0 ARM7TDMI.init).toOption.map CPU.pc = some 8 ∧
    (ARM7TDMI.boot mem0 ARM7TDMI.init).toOption.map CPU.decoded =
      some (some (Instr.unknown 0xEA000002)) ∧
    Decoder.decode 0xEA000002 0 = Except.ok (Instr.b 0 16) ∧
    Instr.unknown 0xEA000002 ≠ Instr.b 0 16 := by
  refine ⟨by decide, by decide, by decide, by decide⟩

/-- Claim C2, counterexample: in a state whose decode phase just produced
a Branch targeting `T = 0x0A000000`, the same step's fetch does read `T`,
but the FOLLOWING step's fetch reads 8 instead of `T + 4`: the refill
decode pair (address `T`, word 0) decodes — through the argument order
the core actually uses — to another Branch, and fetch priority rule 1
redirects to that branch's target. -/
theorem C2_branch_flush_counterexample :
    ARM7TDMI.fetchAddr sigB = 0x0A000000 ∧
    (ARM7TDMI.decodePhase (ARM7TDMI.execPhase memZ (ARM7TDMI.fetchPhase memZ sigB))).toOption.map
        ARM7TDMI.fetchAddr = some 8 ∧
    (8 : Int) ≠ 0x0A000000 + 4 := by
  refine ⟨by decide, by decide, by decide⟩

theorem fetchPhase_decoded (mem : Int → Nat) (σ : CPU) :
    (ARM7TDMI.fetchPhase mem σ).decoded = σ.decoded := by
  cases hb : σ.branched <;> simp [ARM7TDMI.fetchPhase, hb]

theorem fetchPhase_fetched (mem : Int → Nat) (σ : CPU) :
    (ARM7TDMI.fetchPhase mem σ).fetched =
      some (ARM7TDMI.fetchAddr σ, mem (ARM7TDMI.fetchAddr σ)) := by
  cases hb : σ.branched <;> simp [ARM7TDMI.fetchPhase, hb]

theorem execPhase_branch (mem : Int → Nat) (σ : CPU) (p T : Int)
    (h : σ.decoded = some (Instr.b p T)) :
    ARM7TDMI.execPhase mem σ =
      { σ with pc := T, branched := true, log := Ev.instrEv p :: σ.log } := by
  simp [ARM7TDMI.execPhase, h, ARM7TDMI.bOp]

theorem stepFetchAddr (mem : Int → Nat) (σ1 : CPU) (p T : Int) (i : Instr)
    (hd : σ1.decoded = some (Instr.b p T))
    (hf : σ1.fetched = some (T, mem T))
    (hD : Decoder.decode T ((mem T : Nat) : Int) = Except.ok i)
    (hnb : ∀ q U, i ≠ Instr.b q U) :
    (ARM7TDMI.decodePhase (ARM7TDMI.execPhase mem σ1)).toOption.map ARM7TDMI.fetchAddr
      = some (T + 4) := by
  rw [execPhase_branch mem σ1 p T hd]
  simp only [ARM7TDMI.decodePhase, hf, hD, Except.toOption, Option.map_some]
  cases i with
  | b q U => exact absurd rfl (hnb q U)
  | unknown q => simp [ARM7TDMI.fetchAddr, ARM_INSTR_LENGTH]
  | dataProc q op Rd Rn Op2 => simp [ARM7TDMI.fetchAddr, ARM_INSTR_LENGTH]
  | dataTransfer q op Rd Rn P offset => simp [ARM7TDMI.fetchAddr, ARM_INSTR_LENGTH]

/-- Claim C2 (corrected): in any state whose decode phase just produced a
Branch descriptor with target `T`, the same step's fetch reads from `T`,
and — PROVIDED the fetch pair at `T` decodes (successfully, through the
argument order the core actually uses) to a non-branch descriptor — the
following step's fetch reads from `T + 4`.  When the refill decode is
itself a Branch its early redirect wins instead, and a decode failure
aborts the step before its fetch. -/
theorem C2_branch_flush_amended (mem : Int → Nat) (σ : CPU) (p T : Int)
    (hdec : σ.decoded = some (Instr.b p T))
    (hnext : decodesToNonBranch (Decoder.decode T ((mem T : Nat) : Int)) = true) :
    ARM7TDMI.fetchAddr σ = T ∧
    (ARM7TDMI.decodePhase (ARM7TDMI.execPhase mem (ARM7TDMI.fetchPhase mem σ))).toOption.map
        ARM7TDMI.fetchAddr = some (T + 4) := by
  have h1 : ARM7TDMI.fetchAddr σ = T := by simp [ARM7TDMI.fetchAddr, hdec]
  refine ⟨h1, ?_⟩
  have hd1 : (ARM7TDMI.fetchPhase mem σ).decoded = some (Instr.b p T) := by
    rw [fetchPhase_decoded, hdec]
  have hf1 : (ARM7TDMI.fetchPhase mem σ).fetched = some (T, mem T) := by
    rw [fetchPhase_fetched, h1]
  cases hD : Decoder.decode T ((mem T : Nat) : Int) with
  | error e => rw [hD] at hnext; simp [decodesToNonBranch] at hnext
  | ok i =>
    have hnb : ∀ q U, i ≠ Instr.b q U := by
      intro q U hiq
      rw [hiq] at hD
      rw [hD] at hnext
      simp [decodesToNonBranch] at hnext
    exact stepFetchAddr mem (ARM7TDMI.fetchPhase mem σ) p T i hd1 hf1 hD hnb

/-- Witness for the amended C2: a decoded Branch to address 12 over
all-zero memory makes this step fetch from 12 and the following step
fetch from 16. -/
theorem C2_branch_flush_amended_witness :
    decodesToNonBranch (Decoder.decode 12 ((memZ 12 : Nat) : Int)) = true ∧
    ARM7TDMI.fetchAddr sigBW = 12 ∧
    (ARM7TDMI.decodePhase (ARM7TDMI.execPhase memZ (ARM7TDMI.fetchPhase memZ sigBW))).toOption.map
        ARM7TDMI.fetchAddr = some (12 + 4) := by
  have h := C2_branch_flush_amended memZ sigBW 0 12 rfl (by decide)
  exact ⟨by decide, h.1, h.2⟩
